import Mathlib

/-!
Verification of the human-in-the-loop resumable image-order workflow from
src/day2/image-agent-with-approval/agent.py. The tool function
place_image_generation_order, the event scanner check_for_approval and the
resume-dispatch logic of run_image_workflow are embedded shallowly; the
orchestrator-level resume errors, which live outside the repository's own
sources, are modelled from the design document.
-/

namespace ImageApproval

/-- LARGE_ORDER_THRESHOLD = 1 (agent.py line 20). -/
def LARGE_ORDER_THRESHOLD : Int := 1

/-- The framework's tool-confirmation object: carries the human decision.
Present on the ToolContext only when the invocation is resuming a pending
confirmation. -/
structure ToolConfirmation where
  confirmed : Bool
deriving DecidableEq

/-- The slice of the ADK ToolContext the tool can observe: the confirmation
slot plus ambient identification fields that the tool never reads. -/
structure ToolContext where
  function_call_id : Option String
  agent_name : String
  tool_confirmation : Option ToolConfirmation
deriving DecidableEq

/-- The payload dict passed to request_confirmation: payload = a dict with
the single key num_images (agent.py line 58). -/
structure Payload where
  num_images : Int
deriving DecidableEq

/-- The confirmation request emitted by tool_context.request_confirmation
(agent.py lines 56-59): a human-readable hint and the raw payload. -/
structure ConfirmationRequest where
  hint : String
  payload : Payload
deriving DecidableEq

/-- The result dict of place_image_generation_order. The Python dict has
keys status and message in every branch; order_id and num_images appear
only in the approved branches, hence Option fields. -/
structure OrderResult where
  status : String
  order_id : Option String
  num_images : Option Int
  message : String
deriving DecidableEq

/-- Shallow embedding of place_image_generation_order (agent.py lines
29-79). The mutation performed by tool_context.request_confirmation is made
explicit as the second component of the result: the confirmation request
emitted by the call, if any. -/
def place_image_generation_order (num_images : Int) (tool_context : ToolContext) :
    OrderResult × Option ConfirmationRequest :=
  if num_images ≤ LARGE_ORDER_THRESHOLD then
    ({ status := "approved",
       order_id := some ("ORD-" ++ toString num_images ++ "-AUTO"),
       num_images := some num_images,
       message := "Order auto-approved: " ++ toString num_images ++ " images" },
     none)
  else
    match tool_context.tool_confirmation with
    | none =>
        ({ status := "pending",
           order_id := none,
           num_images := none,
           message := "Order for " ++ toString num_images ++ " images requires approval" },
         some { hint := "⚠️ Large order: " ++ toString num_images ++ " images. Do you want to approve?",
                payload := { num_images := num_images } })
    | some tc =>
        if tc.confirmed then
          ({ status := "approved",
             order_id := some ("ORD-" ++ toString num_images ++ "-HUMAN"),
             num_images := some num_images,
             message := "Order approved: " ++ toString num_images ++ " images" },
           none)
        else
          ({ status := "rejected",
             order_id := none,
             num_images := none,
             message := "Order rejected: " ++ toString num_images ++ " images" },
           none)

/-- C1: a call to the gate with num_images above the threshold and no prior
confirmation ticket emits a confirmation_request carrying the human-readable
hint and the raw payload with the requested count, and returns status
pending without executing the order action: the result carries no order_id. -/
theorem gate_pending_no_order (n : Int) (ctx : ToolContext)
    (hn : LARGE_ORDER_THRESHOLD < n) (hc : ctx.tool_confirmation = none) :
    (place_image_generation_order n ctx).1.status = "pending" ∧
    (place_image_generation_order n ctx).1.order_id = none ∧
    (place_image_generation_order n ctx).2 =
      some { hint := "⚠️ Large order: " ++ toString n ++ " images. Do you want to approve?",
             payload := { num_images := n } } := by
  unfold place_image_generation_order
  rw [if_neg (not_le.mpr hn), hc]
  exact ⟨rfl, rfl, rfl⟩

/-- Witness for C1 at a concrete large order with no prior ticket. -/
theorem gate_pending_no_order_witness :
    (place_image_generation_order 5 ⟨none, "image_order_agent", none⟩).1.status = "pending" ∧
    (place_image_generation_order 5 ⟨none, "image_order_agent", none⟩).1.order_id = none ∧
    (place_image_generation_order 5 ⟨none, "image_order_agent", none⟩).2 =
      some { hint := "⚠️ Large order: " ++ toString (5 : Int) ++ " images. Do you want to approve?",
             payload := { num_images := 5 } } :=
  gate_pending_no_order 5 ⟨none, "image_order_agent", none⟩ (by decide) rfl

/-- C2: resuming an above-threshold order with a ticket confirmed = true
returns the approved outcome and the guarded order action runs: the result
carries an order_id (the human-approval order id for that count). -/
theorem gate_resume_approved (n : Int) (ctx : ToolContext)
    (hn : LARGE_ORDER_THRESHOLD < n) (hc : ctx.tool_confirmation = some ⟨true⟩) :
    (place_image_generation_order n ctx).1.status = "approved" ∧
    (place_image_generation_order n ctx).1.order_id =
      some ("ORD-" ++ toString n ++ "-HUMAN") ∧
    (place_image_generation_order n ctx).2 = none := by
  unfold place_image_generation_order
  rw [if_neg (not_le.mpr hn), hc]
  exact ⟨rfl, rfl, rfl⟩

/-- Witness for C2 at a concrete approved resume. -/
theorem gate_resume_approved_witness :
    (place_image_generation_order 10 ⟨some "fc-1", "image_order_agent", some ⟨true⟩⟩).1.status
      = "approved" ∧
    (place_image_generation_order 10 ⟨some "fc-1", "image_order_agent", some ⟨true⟩⟩).1.order_id
      = some ("ORD-" ++ toString (10 : Int) ++ "-HUMAN") ∧
    (place_image_generation_order 10 ⟨some "fc-1", "image_order_agent", some ⟨true⟩⟩).2 = none :=
  gate_resume_approved 10 ⟨some "fc-1", "image_order_agent", some ⟨true⟩⟩ (by decide) rfl

/-- C3: resuming an above-threshold order with a ticket confirmed = false
returns the rejected outcome and the guarded order action never runs: the
result carries no order_id and no confirmation request is emitted. -/
theorem gate_resume_rejected (n : Int) (ctx : ToolContext)
    (hn : LARGE_ORDER_THRESHOLD < n) (hc : ctx.tool_confirmation = some ⟨false⟩) :
    (place_image_generation_order n ctx).1.status = "rejected" ∧
    (place_image_generation_order n ctx).1.order_id = none ∧
    (place_image_generation_order n ctx).2 = none := by
  unfold place_image_generation_order
  rw [if_neg (not_le.mpr hn), hc]
  exact ⟨rfl, rfl, rfl⟩

/-- Witness for C3 at a concrete rejected resume. -/
theorem gate_resume_rejected_witness :
    (place_image_generation_order 8 ⟨some "fc-2", "image_order_agent", some ⟨false⟩⟩).1.status
      = "rejected" ∧
    (place_image_generation_order 8 ⟨some "fc-2", "image_order_agent", some ⟨false⟩⟩).1.order_id
      = none ∧
    (place_image_generation_order 8 ⟨some "fc-2", "image_order_agent", some ⟨false⟩⟩).2 = none :=
  gate_resume_rejected 8 ⟨some "fc-2", "image_order_agent", some ⟨false⟩⟩ (by decide) rfl

/-- C4: an order at or below the threshold of 1 is auto-approved
immediately, no confirmation is requested, and the action runs: the result
carries the auto order_id for that count. -/
theorem gate_auto_approved (n : Int) (ctx : ToolContext)
    (hn : n ≤ LARGE_ORDER_THRESHOLD) :
    (place_image_generation_order n ctx).1.status = "approved" ∧
    (place_image_generation_order n ctx).1.order_id =
      some ("ORD-" ++ toString n ++ "-AUTO") ∧
    (place_image_generation_order n ctx).2 = none := by
  unfold place_image_generation_order
  rw [if_pos hn]
  exact ⟨rfl, rfl, rfl⟩

/-- Witness for C4 at a one-unit order. -/
theorem gate_auto_approved_witness :
    (place_image_generation_order 1 ⟨none, "image_order_agent", none⟩).1.status = "approved" ∧
    (place_image_generation_order 1 ⟨none, "image_order_agent", none⟩).1.order_id
      = some ("ORD-" ++ toString (1 : Int) ++ "-AUTO") ∧
    (place_image_generation_order 1 ⟨none, "image_order_agent", none⟩).2 = none :=
  gate_auto_approved 1 ⟨none, "image_order_agent", none⟩ (by decide)

/-- C6: Scenario B. A request for 10 units, above the threshold, yields
PENDING with the payload recording 10 units (the payload's num_images
field, the design's unit count); resuming with decision = true yields
APPROVED with the action executed once for 10 units: the human-approval
order id and num_images field both record 10. Contexts are the concrete
ones of the scenario. -/
theorem scenario_b_ten_units :
    (place_image_generation_order 10 ⟨some "call-b", "image_order_agent", none⟩).1.status
      = "pending" ∧
    (place_image_generation_order 10 ⟨some "call-b", "image_order_agent", none⟩).2
      = some { hint := "⚠️ Large order: 10 images. Do you want to approve?",
               payload := { num_images := 10 } } ∧
    (place_image_generation_order 10
        ⟨some "call-b", "image_order_agent", some ⟨true⟩⟩).1.status = "approved" ∧
    (place_image_generation_order 10
        ⟨some "call-b", "image_order_agent", some ⟨true⟩⟩).1.order_id
      = some "ORD-10-HUMAN" ∧
    (place_image_generation_order 10
        ⟨some "call-b", "image_order_agent", some ⟨true⟩⟩).1.num_images = some 10 :=
  ⟨rfl, rfl, rfl, rfl, rfl⟩

/-- A concatenation whose first part is nonempty is nonempty. -/
theorem length_append_pos (s t : String) (h : 0 < s.length) : 0 < (s ++ t).length := by
  rw [String.length_append]
  omega

/-- C8: shape invariant of the result dict. For every count and every
confirmation state the status is one of approved, pending, rejected; the
message is a nonempty string; and the order_id and num_images fields are
present exactly when the status is approved. -/
theorem gate_result_shape (n : Int) (ctx : ToolContext) :
    ((place_image_generation_order n ctx).1.status = "approved" ∨
     (place_image_generation_order n ctx).1.status = "pending" ∨
     (place_image_generation_order n ctx).1.status = "rejected") ∧
    0 < (place_image_generation_order n ctx).1.message.length ∧
    ((place_image_generation_order n ctx).1.order_id.isSome = true ↔
      (place_image_generation_order n ctx).1.status = "approved") ∧
    ((place_image_generation_order n ctx).1.num_images.isSome = true ↔
      (place_image_generation_order n ctx).1.status = "approved") := by
  unfold place_image_generation_order
  split
  · exact ⟨Or.inl rfl, length_append_pos _ _ (length_append_pos _ _ (by decide)),
      by simp, by simp⟩
  · cases hc : ctx.tool_confirmation with
    | none =>
        exact ⟨Or.inr (Or.inl rfl), length_append_pos _ _ (length_append_pos _ _ (by decide)),
          by simp, by simp⟩
    | some tc =>
        rcases tc with ⟨b⟩
        cases b with
        | true =>
            exact ⟨Or.inl rfl, length_append_pos _ _ (length_append_pos _ _ (by decide)),
              by simp, by simp⟩
        | false =>
            exact ⟨Or.inr (Or.inr rfl), length_append_pos _ _ (length_append_pos _ _ (by decide)),
              by simp, by simp⟩

/-- Witness for C8: a concrete pending result has a nonempty message. -/
theorem gate_result_shape_witness :
    0 < (place_image_generation_order 2 ⟨none, "image_order_agent", none⟩).1.message.length :=
  (gate_result_shape 2 ⟨none, "image_order_agent", none⟩).2.1

/-- C9: determinism / noninterference. The result of
place_image_generation_order depends only on num_images and on the
confirmation state: two contexts agreeing on tool_confirmation, whatever
their other fields, give equal results. -/
theorem gate_deterministic (n : Int) (c1 c2 : ToolContext)
    (h : c1.tool_confirmation = c2.tool_confirmation) :
    place_image_generation_order n c1 = place_image_generation_order n c2 := by
  unfold place_image_generation_order
  rw [h]

/-- Witness for C9: two contexts differing in every other field give the
same result on the same count. -/
theorem gate_deterministic_witness :
    (⟨some "fc-9", "image_order_agent", none⟩ : ToolContext).tool_confirmation
      = (⟨none, "other_agent", none⟩ : ToolContext).tool_confirmation ∧
    place_image_generation_order 7 ⟨some "fc-9", "image_order_agent", none⟩
      = place_image_generation_order 7 ⟨none, "other_agent", none⟩ :=
  ⟨rfl, gate_deterministic 7 ⟨some "fc-9", "image_order_agent", none⟩
      ⟨none, "other_agent", none⟩ rfl⟩

/-- A function call carried by an event part. In the genai types both the
id and the name are optional. -/
structure FunctionCall where
  id : Option String
  name : Option String
deriving DecidableEq

/-- One part of an event's content: an optional function call and optional
text, the two attributes the workflow code reads. -/
structure Part where
  function_call : Option FunctionCall
  text : Option String
deriving DecidableEq

/-- Event content: an optional list of parts (Python treats a missing or
empty list as falsy). -/
structure Content where
  parts : Option (List Part)
deriving DecidableEq

/-- An event produced by a run: its invocation_id and optional content. -/
structure Event where
  invocation_id : String
  content : Option Content
deriving DecidableEq

/-- The dict returned by check_for_approval when a confirmation request is
found: the function-call id and the event's invocation_id. -/
structure ApprovalInfo where
  approval_id : Option String
  invocation_id : String
deriving DecidableEq

/-- Inner loop of check_for_approval over the parts of one event
(agent.py lines 152-160): return on the first part whose function_call is
present and named adk_request_confirmation. -/
def checkParts (inv : String) : List Part → Option ApprovalInfo
  | [] => none
  | p :: ps =>
      match p.function_call with
      | some fc =>
          if fc.name == some "adk_request_confirmation" then
            some { approval_id := fc.id, invocation_id := inv }
          else checkParts inv ps
      | none => checkParts inv ps

/-- Shallow embedding of check_for_approval (agent.py lines 144-161):
scan events in order; skip an event whose content is missing or whose parts
are missing or empty; return the approval info of the first matching part. -/
def check_for_approval : List Event → Option ApprovalInfo
  | [] => none
  | e :: es =>
      match e.content with
      | none => check_for_approval es
      | some c =>
          match c.parts with
          | none => check_for_approval es
          | some ps =>
              if ps.isEmpty then check_for_approval es
              else
                match checkParts e.invocation_id ps with
                | some info => some info
                | none => check_for_approval es

/-- Whether a part carries a function call named adk_request_confirmation. -/
def partMatches (p : Part) : Bool :=
  match p.function_call with
  | some fc => fc.name == some "adk_request_confirmation"
  | none => false

/-- The (invocation_id, part) pairs contributed by one event, in part
order; an event with missing content or missing parts contributes none. -/
def eventParts (e : Event) : List (String × Part) :=
  match e.content with
  | none => []
  | some c =>
      match c.parts with
      | none => []
      | some ps => ps.map (fun p => (e.invocation_id, p))

/-- All (invocation_id, part) pairs of a run, in event order. -/
def allParts : List Event → List (String × Part)
  | [] => []
  | e :: es => eventParts e ++ allParts es

/-- The first matching (invocation_id, part) pair, turned into the
approval info the scanner would build from it. -/
def firstApprovalInfo : List (String × Part) → Option ApprovalInfo
  | [] => none
  | ip :: rest =>
      match ip.2.function_call with
      | some fc =>
          if fc.name == some "adk_request_confirmation" then
            some { approval_id := fc.id, invocation_id := ip.1 }
          else firstApprovalInfo rest
      | none => firstApprovalInfo rest

theorem checkParts_eq_firstApprovalInfo (inv : String) (ps : List Part) :
    checkParts inv ps = firstApprovalInfo (ps.map (fun p => (inv, p))) := by
  induction ps with
  | nil => rfl
  | cons p ps ih =>
      simp only [checkParts, List.map_cons, firstApprovalInfo]
      cases p.function_call with
      | none => exact ih
      | some fc =>
          by_cases h : (fc.name == some "adk_request_confirmation") = true
          · simp [h]
          · simp [h, ih]

theorem firstApprovalInfo_append (xs ys : List (String × Part)) :
    firstApprovalInfo (xs ++ ys) =
      match firstApprovalInfo xs with
      | some info => some info
      | none => firstApprovalInfo ys := by
  induction xs with
  | nil => rfl
  | cons ip xs ih =>
      simp only [List.cons_append, firstApprovalInfo]
      cases ip.2.function_call with
      | none => exact ih
      | some fc =>
          by_cases h : (fc.name == some "adk_request_confirmation") = true
          · simp [h]
          · simp [h, ih]

/-- check_for_approval agrees with the first-match scan over the flattened
(invocation_id, part) sequence of the run. -/
theorem check_for_approval_eq_first (es : List Event) :
    check_for_approval es = firstApprovalInfo (allParts es) := by
  induction es with
  | nil => rfl
  | cons e es ih =>
      rcases e with ⟨inv, content⟩
      cases content with
      | none => simpa [check_for_approval, allParts, eventParts] using ih
      | some c =>
          rcases c with ⟨parts⟩
          cases parts with
          | none => simpa [check_for_approval, allParts, eventParts] using ih
          | some ps =>
              cases ps with
              | nil => simpa [check_for_approval, allParts, eventParts] using ih
              | cons p rest =>
                  simp only [check_for_approval, allParts, eventParts]
                  rw [if_neg (by simp), firstApprovalInfo_append,
                    ← checkParts_eq_firstApprovalInfo]
                  cases checkParts inv (p :: rest) with
                  | none => exact ih
                  | some info => rfl

/-- No match in a pair list means the first-match scan yields none. -/
theorem firstApprovalInfo_none_iff (l : List (String × Part)) :
    firstApprovalInfo l = none ↔ ∀ ip ∈ l, partMatches ip.2 = false := by
  induction l with
  | nil => simp [firstApprovalInfo]
  | cons ip rest ih =>
      simp only [firstApprovalInfo, partMatches]
      cases hf : ip.2.function_call with
      | none => simp [ih, partMatches, hf]
      | some fc =>
          by_cases h : (fc.name == some "adk_request_confirmation") = true
          · simp [h, partMatches, hf]
          · simp [h, ih, partMatches, hf]

/-- C10: check_for_approval returns none exactly when no part of any event
carries a function call named adk_request_confirmation, and otherwise
returns the approval_id and invocation_id taken from the first such part in
event order; events with missing or empty content or parts are skipped (they
contribute no pairs to the flattened scan). -/
theorem check_for_approval_correct (es : List Event) :
    (check_for_approval es = none ↔ ∀ ip ∈ allParts es, partMatches ip.2 = false) ∧
    check_for_approval es = firstApprovalInfo (allParts es) := by
  constructor
  · rw [check_for_approval_eq_first]
    exact firstApprovalInfo_none_iff (allParts es)
  · exact check_for_approval_eq_first es

/-- Witness for C10: on a run whose first event has no content and whose
second event carries the confirmation request, the scanner agrees with the
first-match characterization. -/
theorem check_for_approval_correct_witness :
    check_for_approval
        [{ invocation_id := "e-0", content := none },
         { invocation_id := "e-1",
           content := some { parts := some [
             { function_call := some { id := some "fc-7", name := some "adk_request_confirmation" },
               text := none } ] } }]
      = firstApprovalInfo (allParts
          [{ invocation_id := "e-0", content := none },
           { invocation_id := "e-1",
             content := some { parts := some [
               { function_call := some { id := some "fc-7", name := some "adk_request_confirmation" },
                 text := none } ] } }]) :=
  (check_for_approval_correct
    [{ invocation_id := "e-0", content := none },
     { invocation_id := "e-1",
       content := some { parts := some [
         { function_call := some { id := some "fc-7", name := some "adk_request_confirmation" },
           text := none } ] } }]).2

/-- One resume request issued by run_image_workflow (agent.py lines
225-234): the invocation_id passed to run_async, the function-call id used
in the FunctionResponse, and the simulated human decision. -/
structure ResumeCall where
  invocation_id : String
  approval_id : Option String
  approved : Bool
deriving DecidableEq

/-- Shallow embedding of the resume-dispatch logic of run_image_workflow
(agent.py lines 215-234): scan the first run's events with
check_for_approval; when approval info is found issue exactly one resume
carrying that info's invocation_id and approval_id together with the
auto_approve decision, otherwise issue none. -/
def workflow_resume_calls (events : List Event) (auto_approve : Bool) : List ResumeCall :=
  match check_for_approval events with
  | some info =>
      [{ invocation_id := info.invocation_id,
         approval_id := info.approval_id,
         approved := auto_approve }]
  | none => []

/-- C5: run_image_workflow issues at most one resume per run, and any
resume it issues carries verbatim the invocation_id (and function-call id)
of the first event part holding the adk_request_confirmation function
call, together with the simulated decision. -/
theorem workflow_resume_correlated (events : List Event) (auto_approve : Bool) :
    (workflow_resume_calls events auto_approve).length ≤ 1 ∧
    ∀ rc ∈ workflow_resume_calls events auto_approve,
      ∃ info, firstApprovalInfo (allParts events) = some info ∧
        rc.invocation_id = info.invocation_id ∧
        rc.approval_id = info.approval_id ∧
        rc.approved = auto_approve := by
  unfold workflow_resume_calls
  rw [check_for_approval_eq_first]
  cases h : firstApprovalInfo (allParts events) with
  | none =>
      refine ⟨by simp, ?_⟩
      intro rc hrc
      simp at hrc
  | some info =>
      refine ⟨by simp, ?_⟩
      intro rc hrc
      simp only [List.mem_singleton] at hrc
      subst hrc
      exact ⟨info, rfl, rfl, rfl, rfl⟩

/-- A one-event run whose single part carries the confirmation request. -/
def sampleConfirmationEvent : Event :=
  { invocation_id := "e-123",
    content := some { parts := some [
      { function_call := some { id := some "fc-42", name := some "adk_request_confirmation" },
        text := none } ] } }

/-- Witness for C5: on the sample run the issued resume carries the
invocation_id and function-call id of the confirmation event. -/
theorem workflow_resume_correlated_witness :
    ∃ info, firstApprovalInfo (allParts [sampleConfirmationEvent]) = some info ∧
      (⟨"e-123", some "fc-42", true⟩ : ResumeCall).invocation_id = info.invocation_id ∧
      (⟨"e-123", some "fc-42", true⟩ : ResumeCall).approval_id = info.approval_id ∧
      (⟨"e-123", some "fc-42", true⟩ : ResumeCall).approved = true :=
  (workflow_resume_correlated [sampleConfirmationEvent] true).2
    ⟨"e-123", some "fc-42", true⟩ (List.Mem.head _)

/-- Invocation status per the design document. -/
inductive InvStatus
  | running
  | suspended
  | completed
  | failed
deriving DecidableEq

/-- The single-slot pending confirmation of a suspended invocation. -/
structure PendingConfirmation where
  gate_id : String
  payload : Payload
deriving DecidableEq

/-- The persisted execution state of one run. -/
structure InvocationRecord where
  invocation_id : String
  session_id : String
  status : InvStatus
  cursor : Nat
  pending_confirmation : Option PendingConfirmation
deriving DecidableEq

/-- Errors of the orchestrator-level resume operation. -/
inductive ResumeError
  | InvocationNotFound
  | NotSuspended
deriving DecidableEq

/-- Outcomes of a confirmation gate. -/
inductive GateOutcome
  | AUTO_APPROVED
  | PENDING
  | APPROVED
  | REJECTED
deriving DecidableEq

/-- Result of a resume: the outcome reported to the caller and the store
after the call. -/
structure ResumeResult where
  outcome : Except ResumeError GateOutcome
  store : List InvocationRecord

/-- Modelled from the spec: the orchestrator-level resume operation is
implemented by the external ADK runtime, not by this repository's own
sources; this definition follows section 4.2 of the design.
resume(invocation_id, decision) fails with InvocationNotFound if the id is
unknown, fails with NotSuspended if the record's status is not suspended,
and otherwise re-enters the suspended step, supplies the decision to the
gate (APPROVED on true, REJECTED on false), clears the single pending
confirmation and advances the cursor. -/
def resume (store : List InvocationRecord) (iid : String) (decision : Bool) : ResumeResult :=
  match store.find? (fun r => r.invocation_id == iid) with
  | none => { outcome := Except.error ResumeError.InvocationNotFound, store := store }
  | some r =>
      if r.status = InvStatus.suspended then
        { outcome := Except.ok (if decision then GateOutcome.APPROVED else GateOutcome.REJECTED),
          store := store.map (fun s =>
            if s.invocation_id == iid then
              { s with status := InvStatus.completed, cursor := s.cursor + 1,
                       pending_confirmation := none }
            else s) }
      else { outcome := Except.error ResumeError.NotSuspended, store := store }

/-- C7: resume on an unknown invocation_id fails with InvocationNotFound,
and resume on a known invocation whose status is not suspended fails with
NotSuspended; in both cases the store is unchanged, so the invocation never
partially advances. -/
theorem resume_error_no_advance (store : List InvocationRecord) (iid : String) (d : Bool) :
    (store.find? (fun r => r.invocation_id == iid) = none →
      (resume store iid d).outcome = Except.error ResumeError.InvocationNotFound ∧
      (resume store iid d).store = store) ∧
    (∀ r, store.find? (fun r => r.invocation_id == iid) = some r →
      r.status ≠ InvStatus.suspended →
      (resume store iid d).outcome = Except.error ResumeError.NotSuspended ∧
      (resume store iid d).store = store) := by
  constructor
  · intro h
    unfold resume
    rw [h]
    exact ⟨rfl, rfl⟩
  · intro r h hs
    have he : resume store iid d
        = { outcome := Except.error ResumeError.NotSuspended, store := store } := by
      unfold resume
      rw [h]
      exact if_neg hs
    rw [he]
    exact ⟨rfl, rfl⟩

/-- Witness for C7: resume on an empty store reports InvocationNotFound and
leaves the store as it was; resume on a completed invocation reports
NotSuspended and leaves the store as it was. -/
theorem resume_error_no_advance_witness :
    ((resume [] "inv-1" true).outcome = Except.error ResumeError.InvocationNotFound ∧
      (resume [] "inv-1" true).store = []) ∧
    ((resume [⟨"inv-2", "sess", InvStatus.completed, 3, none⟩] "inv-2" true).outcome
        = Except.error ResumeError.NotSuspended ∧
      (resume [⟨"inv-2", "sess", InvStatus.completed, 3, none⟩] "inv-2" true).store
        = [⟨"inv-2", "sess", InvStatus.completed, 3, none⟩]) :=
  ⟨(resume_error_no_advance [] "inv-1" true).1 rfl,
   (resume_error_no_advance [⟨"inv-2", "sess", InvStatus.completed, 3, none⟩] "inv-2" true).2
     ⟨"inv-2", "sess", InvStatus.completed, 3, none⟩ rfl (by decide)⟩

end ImageApproval
